import Mathlib

/-!
Verification of the RSS-to-podcast-notes script (`src/main.py`).

The script is a sequential pipeline: load a feed registry, fetch feeds,
filter entries by recency, build a prompt, call a text-generation service,
and write the result to a file.  This file shallowly embeds the pure parts
of that pipeline and proves properties about them.

Modelling conventions:

* A feed entry is a dictionary (feedparser's `FeedParserDict`).  We model
  the fields the code reads as explicit `Option` fields; `none` means the
  key is absent.  The structured date fields (`published_parsed`,
  `updated_parsed`) hold a `time.struct_time` or `None`, so they are
  modelled as `Option (Option Int)`: the outer layer is key presence, the
  inner layer is truthiness of the stored value (a present `struct_time`
  is modelled directly as its UTC timestamp in seconds, matching
  `datetime.datetime(*t[:6], tzinfo=utc)`).
* Python `datetime` values are modelled as `PDate`: an integer timeline
  position in seconds plus an `aware` flag.  Comparing two datetimes of
  equal awareness compares the timestamps; comparing a naive datetime
  with an aware one raises `TypeError`, modelled by `dtGE` returning
  `none`.
* The external permissive date-string reader (`dateutil.parser.parse`) is
  a black box; a textual date field is modelled as `TextDate`, carrying
  the raw string together with the outcome that the reader produces on it
  (`none` = the call raises).
* `datetime.datetime.now(timezone.utc)` is an effect; the embedding takes
  `now` (seconds) as an explicit parameter.
-/

/-- Result of parsing a date string or tuple: a point on the integer
timeline (seconds) plus whether the resulting datetime is timezone-aware. -/
structure PDate where
  ts : Int
  aware : Bool
deriving DecidableEq, Repr

/-- A textual date field: the raw string stored in the entry, paired with
the outcome of the permissive date-string reader on that string
(`none` models the reader raising an exception). -/
structure TextDate where
  raw : String
  parsed : Option PDate
deriving DecidableEq, Repr

/-- One element of an entry's `content` list; `value` models presence of
the `value` key. -/
structure ContentItem where
  value : Option String
deriving DecidableEq, Repr

/-- A feed entry, holding exactly the fields `src/main.py` reads.
`none` in an outer `Option` models the dictionary key being absent. -/
structure Entry where
  title : Option String
  link : Option String
  source_name : Option String
  summary : Option String
  content : Option (List ContentItem)
  published_parsed : Option (Option Int)
  published : Option TextDate
  updated_parsed : Option (Option Int)
  updated : Option TextDate
deriving DecidableEq, Repr

/-- An entry with every key absent, used as a base for concrete examples. -/
def emptyEntry : Entry :=
  ⟨none, none, none, none, none, none, none, none, none⟩

/-- Python comparison `a >= b` on two datetimes: defined when both are
naive or both are aware, raising `TypeError` (modelled as `none`) on a
naive/aware mix. -/
def dtGE (a b : PDate) : Option Bool :=
  if a.aware = b.aware then some (decide (a.ts ≥ b.ts)) else none

/-- Outcome of the date-resolution chain in `filter_entries_by_date`
(lines 73-91 of `src/main.py`): a resolved datetime, the `else: continue`
branch (no date fields), or an exception from the textual date reader. -/
inductive DateRes where
  | ok (d : PDate)
  | noDate
  | parseErr
deriving DecidableEq, Repr

/-- The `if/elif` chain of `filter_entries_by_date`: structured published
(key present and truthy), else textual published (key present; a reader
exception aborts), else structured updated, else textual updated, else no
date.  Translated from `src/main.py` lines 73-84. -/
def resolvePubDate (e : Entry) : DateRes :=
  match e.published_parsed with
  | some (some t) => .ok ⟨t, true⟩
  | _ =>
    match e.published with
    | some td =>
      match td.parsed with
      | some d => .ok d
      | none => .parseErr
    | none =>
      match e.updated_parsed with
      | some (some t) => .ok ⟨t, true⟩
      | _ =>
        match e.updated with
        | some td =>
          match td.parsed with
          | some d => .ok d
          | none => .parseErr
        | none => .noDate

/-- The effective date an entry resolves to, if the chain succeeds. -/
def resolvedDate (e : Entry) : Option PDate :=
  match resolvePubDate e with
  | .ok d => some d
  | _ => none

/-- Number of seconds in `datetime.timedelta(weeks=1)`. -/
def secondsPerWeek : Int := 604800

/-- Whether the loop body of `filter_entries_by_date` appends the entry:
the chain must resolve, and the comparison `pub_date >= cutoff_date`
(against the aware cutoff) must succeed and be true; a `TypeError` from a
naive/aware mix is caught by the `except` block and the entry is skipped. -/
def keepEntry (now weeks_ago : Int) (e : Entry) : Bool :=
  match resolvePubDate e with
  | .ok d => (dtGE d ⟨now - secondsPerWeek * weeks_ago, true⟩).getD false
  | _ => false

/-- `filter_entries_by_date` from `src/main.py` lines 65-93, with the
clock reading `now` made an explicit parameter (seconds, UTC). -/
def filter_entries_by_date (entries : List Entry) (weeks_ago : Int) (now : Int) :
    List Entry :=
  entries.filter (keepEntry now weeks_ago)

/-!  Sorting of the combined entries (`src/main.py` line 282):

`all_entries.sort(key=lambda entry: parser.parse(entry.get('published',
entry.get('updated', '1970-01-01'))), reverse=True)`

The key consults only the textual fields; absent both, the fixed string
`"1970-01-01"` is read, which the permissive reader turns into the naive
epoch.  CPython's `list.sort` computes all keys before comparing, so a
reader exception on any element raises; a comparison between a naive key
and an aware key raises `TypeError` mid-sort.  On success the result is
the stable descending order by key. -/

/-- Sort key of `run` line 282: textual published, else textual updated,
else the parse of the literal `"1970-01-01"` (the naive epoch).  `none`
models the reader raising. -/
def codeSortKey (e : Entry) : Option PDate :=
  match e.published with
  | some td => td.parsed
  | none =>
    match e.updated with
    | some td => td.parsed
    | none => some ⟨0, false⟩

/-- Timestamp of the code's sort key, defaulting to the naive epoch
(only used under the hypothesis that every key is defined). -/
def keyTs (e : Entry) : Int := ((codeSortKey e).getD ⟨0, false⟩).ts

/-- Insert an entry into a descending-by-key list, after all entries of
greater-or-equal key (so equal keys keep first-come order). -/
def insertDescBy (k : Entry → Int) (e : Entry) : List Entry → List Entry
  | [] => [e]
  | x :: rest => if k x ≥ k e then x :: insertDescBy k e rest else e :: x :: rest

/-- Stable descending sort by an integer key: the order `list.sort(...,
reverse=True)` produces when no comparison raises. -/
def stableSortDesc (k : Entry → Int) (es : List Entry) : List Entry :=
  es.foldl (fun acc e => insertDescBy k e acc) []

/-- Ways the sort of `run` line 282 can raise. -/
inductive SortErr where
  | keyRaise
  | cmpRaise
deriving DecidableEq, Repr

/-- Outcome of the sort statement: the sorted list, or an uncaught
exception (there is no handler around it in `run` or at top level, so a
raised exception terminates the process). -/
inductive SortOutcome where
  | ok (l : List Entry)
  | raised (err : SortErr)
deriving DecidableEq, Repr

/-- Whether all keys carry the same awareness flag (so that every Python
datetime comparison among them is defined). -/
def allSameAware : List PDate → Bool
  | [] => true
  | d :: rest => rest.all (fun x => x.aware == d.aware)

/-- The sort of the combined entries, `run` line 282.  Keys are computed
for every element first (as CPython does); any reader exception raises.
Mixed naive/aware keys make a comparison raise `TypeError`.  Otherwise
the list is stably sorted descending by key.  The exception, when raised,
propagates out of `run` uncaught. -/
def sortCombinedEntries (es : List Entry) : SortOutcome :=
  match es.mapM codeSortKey with
  | none => .raised .keyRaise
  | some ks =>
    if allSameAware ks then .ok (stableSortDesc keyTs es) else .raised .cmpRaise

/-!  Prompt construction in `generate_program_notes`
(`src/main.py` lines 95-181). -/

/-- Split a character list at the first `>`: returns the characters
before it and the characters after it, or `none` when no `>` occurs. -/
def splitAtFirstGt : List Char → Option (List Char × List Char)
  | [] => none
  | c :: rest =>
    if c = '>' then some ([], rest)
    else
      match splitAtFirstGt rest with
      | some (b, a) => some (c :: b, a)
      | none => none

/-- Fuelled worker for tag removal, mirroring
`re.sub(r'<[^>]+>', '', summary)`: at a `<`, the pattern matches exactly
when a later `>` exists with at least one character in between, and the
match extends to that first `>`; otherwise scanning resumes at the next
character.  Fuel only guarantees structural recursion; it never runs out
when initialised above the list length, since each step consumes at least
one character. -/
def stripTagsAux : Nat → List Char → List Char
  | 0, cs => cs
  | _ + 1, [] => []
  | fuel + 1, c :: rest =>
    if c = '<' then
      match splitAtFirstGt rest with
      | some (between, after) =>
        if between.isEmpty then c :: stripTagsAux fuel rest
        else stripTagsAux fuel after
      | none => c :: stripTagsAux fuel rest
    else c :: stripTagsAux fuel rest

/-- Tag removal `re.sub(r'<[^>]+>', '', s)` on a character list
(`src/main.py` line 119). -/
def stripTags (cs : List Char) : List Char :=
  stripTagsAux (cs.length + 1) cs

/-- Tag removal on strings. -/
def stripTagsStr (s : String) : String :=
  String.mk (stripTags s.data)

/-- The summary text shown for one entry: tags stripped, sliced to the
first 500 characters, with the literal `"..."` appended
(`src/main.py` lines 119 and 133). -/
def cleanTruncSummary (s : String) : List Char :=
  (stripTags s.data).take 500 ++ ("...").data

/-- Summary resolution (`src/main.py` lines 109-116): the `summary`
field if the key is present, else the first `content` item carrying a
`value` key (the `content` key must be present and the list non-empty),
else the empty string. -/
def summaryOf (e : Entry) : String :=
  match e.summary with
  | some s => s
  | none =>
    match e.content with
    | some items =>
      if items.isEmpty then "" else (items.findSome? (fun ci => ci.value)).getD ""
    | none => ""

/-- Displayed published string (`src/main.py` lines 122-126): raw
`published` if the key is present, else raw `updated`, else empty. -/
def publishedDisplay (e : Entry) : String :=
  match e.published with
  | some td => td.raw
  | none =>
    match e.updated with
    | some td => td.raw
    | none => ""

/-- The per-article block appended to `content` for the article at
0-based index `i` (`src/main.py` lines 128-133). -/
def articleBlock (i : Nat) (e : Entry) : String :=
  "Article " ++ toString (i + 1) ++ ":\n" ++
  "Title: " ++ e.title.getD "No title" ++ "\n" ++
  "Source: " ++ e.source_name.getD "Unknown source" ++ "\n" ++
  "Link: " ++ e.link.getD "No link" ++ "\n" ++
  "Published: " ++ publishedDisplay e ++ "\n" ++
  "Summary: " ++ String.mk (cleanTruncSummary (summaryOf e)) ++ "\n\n"

/-- The article blocks embedded in the prompt: the loop
`for i, entry in enumerate(entries[:20])` (`src/main.py` line 103). -/
def articleBlocks (es : List Entry) : List String :=
  (es.take 20).enum.map (fun p => articleBlock p.1 p.2)

/-- The `content` accumulator after the loop
(`src/main.py` lines 101-133). -/
def contentSection (es : List Entry) : String :=
  "Here are recent articles from RSS feeds:\n\n" ++ String.join (articleBlocks es)

/-- The full prompt f-string (`src/main.py` lines 136-166). -/
def buildPrompt (es : List Entry) (num_topics tech_level : Int) : String :=
  "\nBased on the articles provided, create program notes for a weekly podcast episode.\n" ++
  "The notes should cover " ++ toString num_topics ++ " main topics from these articles.\n\n" ++
  "Technical depth level: " ++ toString tech_level ++
  "/5 (where 0 is non-technical and 5 is highly technical)\n\n" ++
  "For each topic:\n1. Create a catchy title\n2. Write a brief summary (2-3 sentences)\n" ++
  "3. Include key points for discussion (3-5 bullet points)\n" ++
  "4. Mention relevant articles from the list (include the source name)\n\n" ++
  "Here are the articles:\n" ++ contentSection es ++ "\n\n" ++
  "Format the response as:\n# Weekly Podcast Program Notes\n\n" ++
  "## Topic 1: [Catchy Title]\n[Brief summary]\n\nKey points:\n- [Point 1]\n- [Point 2]\n" ++
  "- [Point 3]\n\nRelated articles: [Article numbers] from [Source names]\n\n" ++
  "## Topic 2: [Catchy Title]\n...and so on\n"

/-- `generate_program_notes` (`src/main.py` lines 95-181).  The outbound
text-generation service is a parameter `svc` taking the prompt and
yielding the response text, or `none` when the call raises.  The result
pairs the returned string with the number of service calls performed. -/
def generate_program_notes (svc : String → Option String) (entries : List Entry)
    (num_topics tech_level : Int) : String × Nat :=
  if entries.isEmpty then ("No entries found for the selected time period.", 0)
  else
    match svc (buildPrompt entries num_topics tech_level) with
    | some t => (t, 1)
    | none => ("Failed to generate program notes. Please try again.", 1)

/-!  Output filename fragment (`src/main.py` lines 318-325). -/

/-- Python `s.replace(a, b)` for single characters: a character map. -/
def replaceChar (a b : Char) (cs : List Char) : List Char :=
  cs.map (fun c => if c = a then b else c)

/-- Per-feed-name filename fragment
`name.replace(' ', '_').replace('/', '_').replace('\\', '_')[:10]`
(`src/main.py` line 319). -/
def sanitizeFeedName (name : List Char) : List Char :=
  (replaceChar '\\' '_' (replaceChar '/' '_' (replaceChar ' ' '_' name))).take 10

/-!  Startup credential check (`src/main.py` lines 17-25). -/

/-- Outcome of `RSSPodcastNoteGenerator.__init__` up to client creation. -/
inductive StartupOutcome where
  | exitWithError (code : Nat) (msg : String)
  | clientReady (key : String)
deriving DecidableEq, Repr

/-- The credential check at startup (`src/main.py` lines 19-25):
`os.getenv` yields `none` when the variable is absent; a missing or
falsy (empty) key prints a fixed message and exits with status 1, and
only past this point is the service client constructed (so no network
call can precede the exit). -/
def startupCheck (apiKey : Option String) : StartupOutcome :=
  match apiKey with
  | none => .exitWithError 1 "Error: ANTHROPIC_API_KEY not found in .env file"
  | some k =>
    if k.isEmpty then .exitWithError 1 "Error: ANTHROPIC_API_KEY not found in .env file"
    else .clientReady k

/-!  Definitions written from the claims' wording, for comparison against
the definitions translated from the source.  Each is named `spec...`. -/

/-- A structured date source "successfully yields a date" when the key is
present and truthy. -/
def structSuccess : Option (Option Int) → Option PDate
  | some (some t) => some ⟨t, true⟩
  | _ => none

/-- A textual date source "successfully yields a date" when the key is
present and the permissive reader succeeds on it. -/
def textSuccess : Option TextDate → Option PDate
  | some td => td.parsed
  | none => none

/-- Resolution as the claims word it: try structured published, textual
published, structured updated, textual updated, in that order, and use
the first source that successfully yields a date. -/
def specFirstSuccessDate (e : Entry) : Option PDate :=
  (structSuccess e.published_parsed).orElse fun _ =>
    (textSuccess e.published).orElse fun _ =>
      (structSuccess e.updated_parsed).orElse fun _ =>
        textSuccess e.updated

/-- Sort key as the claims word it: the timestamp of the same effective
date the filter resolves, with entries lacking any date treated as the
epoch. -/
def specEffKeyTs (e : Entry) : Int :=
  ((resolvedDate e).getD ⟨0, true⟩).ts

/-- The merged sequence re-sorted descending by the filter's effective
date resolution, as the claims word it. -/
def specSortByEffectiveDate (es : List Entry) : List Entry :=
  stableSortDesc specEffKeyTs es

/-- Filename fragment as the claims word it: spaces and path-separator
characters replaced by underscores, with no truncation. -/
def specSanitizeFragment (name : List Char) : List Char :=
  replaceChar '\\' '_' (replaceChar '/' '_' (replaceChar ' ' '_' name))

/-!  Concrete entries used in counterexamples and witnesses.  Timestamps:
2024-01-01T00:00:00Z = 1704067200, 2024-01-03T00:00:00Z = 1704240000,
2024-01-05T00:00:00Z = 1704412800. -/

/-- An entry whose textual published string the permissive reader rejects
but whose structured updated tuple is valid: the claimed first-success
resolution would use the updated tuple, while the code's `elif` chain
stops at the present `published` key and raises. -/
def entrySkipChain : Entry :=
  { emptyEntry with
    published := some ⟨"not a date", none⟩
    updated_parsed := some (some 100) }

/-- An entry whose only date is a textual date without timezone
information: the reader succeeds but yields a naive datetime, and the
comparison against the aware cutoff raises `TypeError`. -/
def entryNaive : Entry :=
  { emptyEntry with
    published := some ⟨"2024-01-05", some ⟨1704412800, false⟩⟩ }

/-- An entry with a structured published tuple at 2024-01-05 but a
textual published string at 2024-01-01: the filter resolves 2024-01-05,
the final sort key reads 2024-01-01. -/
def entryStructNewer : Entry :=
  { emptyEntry with
    published_parsed := some (some 1704412800)
    published := some ⟨"Mon, 01 Jan 2024 00:00:00 GMT", some ⟨1704067200, true⟩⟩ }

/-- An entry dated 2024-01-03 by an aware textual published string. -/
def entryJan3 : Entry :=
  { emptyEntry with
    published := some ⟨"Wed, 03 Jan 2024 00:00:00 GMT", some ⟨1704240000, true⟩⟩ }

/-- An entry dated 2024-01-05 by an aware textual published string. -/
def entryJan5 : Entry :=
  { emptyEntry with
    published := some ⟨"Fri, 05 Jan 2024 00:00:00 GMT", some ⟨1704412800, true⟩⟩ }

/-- An entry that passes the date filter through its structured published
tuple while its textual published string is unreadable: the final sort's
key computation raises on it. -/
def entryBadSortKey : Entry :=
  { emptyEntry with
    published_parsed := some (some 1704412800)
    published := some ⟨"garbage", none⟩ }

/-!  Decomposition of the resolution chain into "first available source",
used to characterize the amended form of the resolution claim. -/

/-- The four date sources consulted by the chain, in priority order. -/
inductive DSource where
  | structPub
  | textPub
  | structUpd
  | textUpd
deriving DecidableEq, Repr

/-- Whether the chain's guard for a source holds: key present and truthy
for the structured sources, key present for the textual sources. -/
def availableSource (e : Entry) : DSource → Bool
  | .structPub => match e.published_parsed with
    | some (some _) => true
    | _ => false
  | .textPub => e.published.isSome
  | .structUpd => match e.updated_parsed with
    | some (some _) => true
    | _ => false
  | .textUpd => e.updated.isSome

/-- The first source whose guard holds, in the chain's fixed order. -/
def firstAvailableSource (e : Entry) : Option DSource :=
  [DSource.structPub, DSource.textPub, DSource.structUpd, DSource.textUpd].find?
    (availableSource e)

/-- What the chain's selected branch produces for a given source: the
stored date for a structured source, and for a textual source the
reader's outcome, an exception counting as `parseErr`. -/
def yieldOfSource (e : Entry) : DSource → DateRes
  | .structPub => match e.published_parsed with
    | some (some t) => .ok ⟨t, true⟩
    | _ => .noDate
  | .textPub => match e.published with
    | some td => match td.parsed with
      | some d => .ok d
      | none => .parseErr
    | none => .noDate
  | .structUpd => match e.updated_parsed with
    | some (some t) => .ok ⟨t, true⟩
    | _ => .noDate
  | .textUpd => match e.updated with
    | some td => match td.parsed with
      | some d => .ok d
      | none => .parseErr
    | none => .noDate

/-!  Helper lemmas (shared; not tied to a single claim). -/

/-- Tag removal leaves a list without `<` unchanged, for any sufficient
fuel. -/
theorem stripTagsAux_of_not_mem_lt :
    ∀ (fuel : Nat) (cs : List Char), (∀ c ∈ cs, c ≠ '<') →
      stripTagsAux fuel cs = cs := by
  intro fuel
  induction fuel with
  | zero => intro cs _; rfl
  | succ n ih =>
    intro cs h
    cases cs with
    | nil => rfl
    | cons c rest =>
      have hc : c ≠ '<' := h c (List.mem_cons_self c rest)
      unfold stripTagsAux
      rw [if_neg hc, ih rest (fun x hx => h x (List.mem_cons_of_mem c hx))]

/-- Tag removal leaves a replicated non-`<` character unchanged. -/
theorem stripTags_replicate (n : Nat) :
    stripTags (List.replicate n 'a') = List.replicate n 'a' := by
  unfold stripTags
  exact stripTagsAux_of_not_mem_lt _ _
    (fun c hc => by rw [List.eq_of_mem_replicate hc]; decide)

/-- Membership in a single-character replacement: the element is the
replacement character, or an original element distinct from the pattern. -/
theorem mem_replaceChar {a b c : Char} {cs : List Char}
    (h : c ∈ replaceChar a b cs) : c = b ∨ (c ∈ cs ∧ c ≠ a) := by
  unfold replaceChar at h
  rw [List.mem_map] at h
  obtain ⟨x, hx, hxc⟩ := h
  by_cases hxa : x = a
  · left
    rw [← hxc, if_pos hxa]
  · right
    rw [← hxc, if_neg hxa]
    exact ⟨hx, hxa⟩

/-- Inserting into a list is a permutation of consing. -/
theorem insertDescBy_perm (k : Entry → Int) (e : Entry) (l : List Entry) :
    (insertDescBy k e l).Perm (e :: l) := by
  induction l with
  | nil => exact List.Perm.refl _
  | cons x rest ih =>
    unfold insertDescBy
    by_cases h : k x ≥ k e
    · rw [if_pos h]
      exact (ih.cons x).trans (List.Perm.swap e x rest)
    · rw [if_neg h]

/-- The insertion-sort fold permutes the accumulator and the input. -/
theorem stableSortDesc_fold_perm (k : Entry → Int) :
    ∀ (es acc : List Entry),
      (es.foldl (fun a e => insertDescBy k e a) acc).Perm (acc ++ es) := by
  intro es
  induction es with
  | nil => intro acc; simp
  | cons e rest ih =>
    intro acc
    have h1 := ih (insertDescBy k e acc)
    have h2 : (insertDescBy k e acc ++ rest).Perm ((e :: acc) ++ rest) :=
      (insertDescBy_perm k e acc).append_right rest
    have h3 : ((e :: acc) ++ rest).Perm (acc ++ e :: rest) := by
      exact List.perm_middle.symm
    exact (h1.trans h2).trans h3

/-- The stable descending sort is a permutation of its input. -/
theorem stableSortDesc_perm (k : Entry → Int) (es : List Entry) :
    (stableSortDesc k es).Perm es := by
  have h := stableSortDesc_fold_perm k es []
  simpa [stableSortDesc] using h

/-- Inserting preserves the descending pairwise order. -/
theorem insertDescBy_pairwise (k : Entry → Int) (e : Entry) (l : List Entry)
    (h : l.Pairwise (fun a b => k a ≥ k b)) :
    (insertDescBy k e l).Pairwise (fun a b => k a ≥ k b) := by
  induction l with
  | nil => simp [insertDescBy]
  | cons x rest ih =>
    rw [List.pairwise_cons] at h
    obtain ⟨hx, hrest⟩ := h
    unfold insertDescBy
    by_cases hxe : k x ≥ k e
    · rw [if_pos hxe, List.pairwise_cons]
      refine ⟨fun b hb => ?_, ih hrest⟩
      have hb2 : b ∈ e :: rest := (insertDescBy_perm k e rest).mem_iff.mp hb
      rcases List.mem_cons.mp hb2 with hbe | hbr
      · rw [hbe]; exact hxe
      · exact hx b hbr
    · rw [if_neg hxe, List.pairwise_cons]
      push_neg at hxe
      refine ⟨fun b hb => ?_, List.pairwise_cons.mpr ⟨hx, hrest⟩⟩
      rcases List.mem_cons.mp hb with hbx | hbr
      · rw [hbx]; exact le_of_lt hxe
      · exact le_trans (hx b hbr) (le_of_lt hxe)

/-- The stable descending sort is descending (pairwise `≥` on keys). -/
theorem stableSortDesc_pairwise (k : Entry → Int) (es : List Entry) :
    (stableSortDesc k es).Pairwise (fun a b => k a ≥ k b) := by
  suffices h : ∀ (es acc : List Entry), acc.Pairwise (fun a b => k a ≥ k b) →
      (es.foldl (fun a e => insertDescBy k e a) acc).Pairwise
        (fun a b => k a ≥ k b) by
    exact h es [] (by simp)
  intro es
  induction es with
  | nil => intro acc h; simpa using h
  | cons e rest ih =>
    intro acc h
    exact ih _ (insertDescBy_pairwise k e acc h)

/-!  Claim theorems. -/

/-- C4: during prompt construction in `generate_program_notes`, each
entry's summary has all markup tags removed (the input
`"<p>Hello <b>world</b></p>"` yields `"Hello world"`) and is truncated to
its first 500 characters followed by the ellipsis marker (a
1000-character summary yields exactly its first 500 characters plus the
marker). -/
theorem c4_summary_strip_and_truncate :
    stripTagsStr "<p>Hello <b>world</b></p>" = "Hello world" ∧
    cleanTruncSummary (String.mk (List.replicate 1000 'a')) =
      List.replicate 500 'a' ++ ("...").data := by
  constructor
  · rfl
  · show (stripTags (List.replicate 1000 'a')).take 500 ++ ("...").data =
      List.replicate 500 'a' ++ ("...").data
    rw [stripTags_replicate, List.take_replicate]
    norm_num

/-- C5: the prompt built by `generate_program_notes` embeds at most the
first 20 entries, in the caller's order; entries beyond the 20th never
influence the prompt. -/
theorem c5_prompt_first_twenty (es : List Entry) (num_topics tech_level : Int) :
    buildPrompt es num_topics tech_level =
      buildPrompt (es.take 20) num_topics tech_level ∧
    (articleBlocks es).length = min 20 es.length := by
  constructor
  · unfold buildPrompt contentSection articleBlocks
    rw [List.take_take, Nat.min_self]
  · unfold articleBlocks
    rw [List.length_map, List.enum_length, List.length_take]

/-- C6: with an empty entry sequence, `generate_program_notes` returns
exactly the fixed "no entries" string and performs zero calls to the
text-generation service, whatever the service would do. -/
theorem c6_empty_entries (svc : String → Option String)
    (num_topics tech_level : Int) :
    generate_program_notes svc [] num_topics tech_level =
      ("No entries found for the selected time period.", 0) := rfl

/-- C8: filtering an already-filtered list with the same window (and the
same clock reading) returns it unchanged. -/
theorem c8_filter_idempotent (es : List Entry) (weeks_ago now : Int) :
    filter_entries_by_date (filter_entries_by_date es weeks_ago now) weeks_ago now =
      filter_entries_by_date es weeks_ago now := by
  unfold filter_entries_by_date
  rw [List.filter_filter]
  simp

/-- C10: the filter's output is an order-preserving subsequence of its
input, with every element an unmodified element of the input. -/
theorem c10_filter_sublist (es : List Entry) (weeks_ago now : Int) :
    (filter_entries_by_date es weeks_ago now).Sublist es :=
  List.filter_sublist es

/-- C1 counterexample: `entryNaive` resolves (first-success) to a date
within the window, yet `filter_entries_by_date` excludes it, because the
naive date cannot be compared against the aware cutoff: inclusion is not
equivalent to "resolvable date within the window, compared in a UTC-aware
domain". -/
theorem c1_counterexample :
    filter_entries_by_date [entryNaive] 1 1704412800 = [] ∧
    specFirstSuccessDate entryNaive = some ⟨1704412800, false⟩ ∧
    resolvedDate entryNaive = some ⟨1704412800, false⟩ ∧
    ((1704412800 : Int) ≥ 1704412800 - secondsPerWeek * 1) := by decide

/-- C2 counterexample: after the merge, the code sorts by the textual
published string, not by the filter's effective-date resolution:
`entryStructNewer` (structured 2024-01-05, textual 2024-01-01) ends up
after `entryJan3` (2024-01-03), while sorting by the filter's resolution
would place it first. -/
theorem c2_counterexample :
    sortCombinedEntries [entryStructNewer, entryJan3] =
      .ok [entryJan3, entryStructNewer] ∧
    specSortByEffectiveDate [entryStructNewer, entryJan3] =
      [entryStructNewer, entryJan3] ∧
    ([entryJan3, entryStructNewer] : List Entry) ≠
      [entryStructNewer, entryJan3] := by decide

/-- C3 counterexample: `entrySkipChain` has an unreadable textual
published string and a valid structured updated tuple; the claimed
first-success resolution yields the updated date, but the code's chain
stops at the present `published` key and resolves nothing. -/
theorem c3_counterexample :
    resolvedDate entrySkipChain = none ∧
    specFirstSuccessDate entrySkipChain = some ⟨100, true⟩ := by decide

/-- C7 counterexample: the feed name `"Bitcoin News/Weekly"` does not
produce the fragment `"Bitcoin_News_Weekly"`: the code truncates each
sanitized name to its first 10 characters, yielding `"Bitcoin_Ne"`. -/
theorem c7_counterexample :
    sanitizeFeedName (("Bitcoin News/Weekly").data) = ("Bitcoin_Ne").data ∧
    specSanitizeFragment (("Bitcoin News/Weekly").data) =
      ("Bitcoin_News_Weekly").data ∧
    ("Bitcoin_Ne").data ≠ ("Bitcoin_News_Weekly").data := by decide

/-- C9 counterexample: the missing-credential exit is not the only
error path that terminates the process: `entryBadSortKey` passes the date
filter (structured published tuple) while its textual published string is
unreadable, so the final sort's key computation raises, and no handler in
`run` or at top level catches it. -/
theorem c9_counterexample :
    filter_entries_by_date [entryBadSortKey, entryJan3] 1 1704412800 =
      [entryBadSortKey, entryJan3] ∧
    sortCombinedEntries [entryBadSortKey, entryJan3] = .raised .keyRaise := by
  decide

/-- C1 (amended): an entry is included by `filter_entries_by_date` iff it
is an input entry whose resolution chain yields a timezone-aware date at
or after `now` minus `weeks_ago` weeks; entries lacking all four date
fields are excluded, as are entries whose chain raises or yields a naive
date. -/
theorem c1_filter_characterization (es : List Entry) (weeks_ago now : Int)
    (e : Entry) :
    (e ∈ filter_entries_by_date es weeks_ago now ↔
      e ∈ es ∧ ∃ d : PDate, resolvedDate e = some d ∧ d.aware = true ∧
        d.ts ≥ now - secondsPerWeek * weeks_ago) ∧
    (resolvePubDate e = .noDate →
      e ∉ filter_entries_by_date es weeks_ago now) := by
  have hkeep : keepEntry now weeks_ago e = true ↔
      ∃ d : PDate, resolvedDate e = some d ∧ d.aware = true ∧
        d.ts ≥ now - secondsPerWeek * weeks_ago := by
    unfold keepEntry resolvedDate
    cases hr : resolvePubDate e with
    | ok d =>
      unfold dtGE
      by_cases ha : d.aware = true
      · simp [ha]
      · simp [ha]
    | noDate => simp
    | parseErr => simp
  have hmem : e ∈ filter_entries_by_date es weeks_ago now ↔
      e ∈ es ∧ keepEntry now weeks_ago e = true := List.mem_filter
  constructor
  · rw [hmem, hkeep]
  · intro hnd hin
    obtain ⟨-, hk⟩ := hmem.mp hin
    rw [hkeep] at hk
    obtain ⟨d, hd, -, -⟩ := hk
    unfold resolvedDate at hd
    rw [hnd] at hd
    cases hd

/-- C1 witness: a concrete undated entry is excluded, by the amended
characterization applied at a concrete input. -/
theorem c1_filter_characterization_witness :
    emptyEntry ∉ filter_entries_by_date [emptyEntry] 1 0 :=
  (c1_filter_characterization [emptyEntry] 1 0 emptyEntry).2 rfl

/-- C2 (amended): whenever the final sort completes without raising, its
output is a permutation of the merged entries in descending order of the
code's sort key (textual published, else textual updated, else the
epoch); in particular entries dated 2024-01-05 and 2024-01-03 by their
textual fields come out in that order. -/
theorem c2_sort_characterization :
    (∀ (es l : List Entry), sortCombinedEntries es = .ok l →
      l.Perm es ∧ l.Pairwise (fun a b => keyTs a ≥ keyTs b)) ∧
    sortCombinedEntries [entryJan3, entryJan5] = .ok [entryJan5, entryJan3] := by
  constructor
  · intro es l h
    unfold sortCombinedEntries at h
    split at h
    · exact SortOutcome.noConfusion h
    · split at h
      · injection h with h2
        subst h2
        exact ⟨stableSortDesc_perm keyTs es, stableSortDesc_pairwise keyTs es⟩
      · exact SortOutcome.noConfusion h
  · decide

/-- C2 witness: the amended sort characterization applied at a concrete
successfully-sorted input. -/
theorem c2_sort_characterization_witness :
    ([entryJan5, entryJan3] : List Entry).Perm [entryJan3, entryJan5] ∧
    ([entryJan5, entryJan3] : List Entry).Pairwise
      (fun a b => keyTs a ≥ keyTs b) :=
  c2_sort_characterization.1 [entryJan3, entryJan5] [entryJan5, entryJan3]
    (by decide)

/-- C3 (amended): the chain resolves using the first source in priority
order whose guard holds (structured sources: key present and truthy;
textual sources: key present); if that source is textual and the reader
rejects it, resolution fails without consulting later sources; when no
guard holds, the entry has no date. -/
theorem c3_resolution_first_available (e : Entry) :
    resolvePubDate e =
      (match firstAvailableSource e with
       | none => DateRes.noDate
       | some s => yieldOfSource e s) := by
  rcases e with ⟨t, l, sn, sm, co, pp, p, up, u⟩
  rcases pp with _ | (_ | v) <;>
    rcases p with _ | ⟨praw, _ | pd⟩ <;>
      rcases up with _ | (_ | w2) <;>
        rcases u with _ | ⟨uraw, _ | ud⟩ <;>
          rfl

/-- C7 (amended): the per-feed filename fragment replaces spaces and
path separators with underscores and then truncates to the first 10
characters: `"Bitcoin News/Weekly"` yields `"Bitcoin_Ne"`; the fragment
never exceeds 10 characters and never contains a space, `/` or `\`. -/
theorem c7_sanitize_characterization :
    sanitizeFeedName (("Bitcoin News/Weekly").data) = ("Bitcoin_Ne").data ∧
    (∀ cs : List Char, (sanitizeFeedName cs).length ≤ 10) ∧
    (∀ cs : List Char, (sanitizeFeedName cs).all
      (fun c => !(c == ' ' || c == '/' || c == '\\')) = true) := by
  refine ⟨by decide, fun cs => ?_, fun cs => ?_⟩
  · unfold sanitizeFeedName
    exact List.length_take_le 10 _
  · rw [List.all_eq_true]
    intro c hc
    unfold sanitizeFeedName at hc
    have hc2 := List.take_subset 10 _ hc
    rcases mem_replaceChar hc2 with h1 | ⟨hc3, h1⟩
    · rw [h1]; decide
    · rcases mem_replaceChar hc3 with h2 | ⟨hc4, h2⟩
      · rw [h2]; decide
      · rcases mem_replaceChar hc4 with h3 | ⟨-, h3⟩
        · rw [h3]; decide
        · simp [h1, h2, h3]

/-- C9 (amended): a missing (or empty) credential at startup prints the
fixed error message and exits with status 1 before the service client
exists, so no network call precedes it; but it is not the only
terminating error path: the final sort raises an uncaught exception on a
filter-passing entry whose textual date is unreadable. -/
theorem c9_startup_exit_and_other_fatal_paths :
    startupCheck none =
      .exitWithError 1 "Error: ANTHROPIC_API_KEY not found in .env file" ∧
    startupCheck (some "") =
      .exitWithError 1 "Error: ANTHROPIC_API_KEY not found in .env file" ∧
    sortCombinedEntries [entryBadSortKey, entryJan3] = .raised .keyRaise := by
  refine ⟨rfl, by decide, by decide⟩
